import Mathlib

/-!
Verification development for the Carbon-Tracker repository.

The data-access layer (backend.py, class Database) issues parameterized SQL
against a MySQL store; the presentation layer (app.py, Streamlit) caches read
results, paginates and sorts them in memory, and performs writes that
invalidate the cache.  The SQL statements are embedded here by their
relational semantics over explicit table states; numeric (float) columns are
modelled as exact integers, since no verified property depends on float
rounding; SQL DATE values are modelled as their ISO-8601 strings (whose
lexicographic order agrees with chronological order), matching the string
arguments the Python layer actually passes.
-/

/-- Python truthiness of an optional integer (None and 0 are falsy).
Used by list_logs for the `if user_id:` guard and by user_met_goal for
`bool(row[0])` where the scalar may be NULL. -/
def pyTruthyInt : Option Int → Bool
  | none => false
  | some n => n != 0

/-- Python truthiness of an optional string (None and the empty string are
falsy).  Used by list_logs for the `if date_from:` and `if date_to:` guards. -/
def pyTruthyStr : Option String → Bool
  | none => false
  | some s => s != ""

/-- A row of the Users table. -/
structure UserRow where
  userID : Int
  name : String
  email : String
  password : String
  carbonGoal : Option Int
  registrationDate : String
deriving Repr, DecidableEq

/-- A row of the Activities table. -/
structure ActivityRow where
  activityID : Int
  name : String
  unitOfMeasure : String
  categoryID : Int
deriving Repr, DecidableEq

/-- A row of the Locations table. -/
structure LocationRow where
  locationID : Int
  city : String
  country : String
deriving Repr, DecidableEq

/-- A row of the ActivityLogs table.  CalculatedEmission is populated by the
database-side BEFORE INSERT trigger, never by the Python layer. -/
structure LogRow where
  logID : Int
  userID : Int
  activityID : Int
  locationID : Option Int
  date : String
  quantity : Int
  calculatedEmission : Int
deriving Repr, DecidableEq

/-- The state of the external MySQL database visible to this system. -/
structure DbState where
  users : List UserRow
  activities : List ActivityRow
  locations : List LocationRow
  /-- EmissionFactors table, as pairs (ActivityID, EmissionValue). -/
  factors : List (Int × Int)
  logs : List LogRow
  nextUserID : Int
  nextLogID : Int
deriving Repr, DecidableEq

/-- The result row shape of Database.list_logs: the SELECT projects
AL.LogID, U.Name, A.Name, AL.Date, AL.Quantity, AL.CalculatedEmission,
L.City, L.Country (the latter two NULL when the LEFT JOIN finds no row). -/
structure LogView where
  logID : Int
  userName : String
  activityName : String
  date : String
  quantity : Int
  calculatedEmission : Int
  city : Option String
  country : Option String
deriving Repr, DecidableEq

/-- An ActivityLogs row together with its JOIN partners, as produced by
FROM ActivityLogs AL JOIN Users U JOIN Activities A LEFT JOIN Locations L.
UserID and ActivityID are primary keys, so the first matching row is the
only matching row. -/
structure JoinedLog where
  al : LogRow
  u : UserRow
  a : ActivityRow
  lo : Option LocationRow
deriving Repr, DecidableEq

/-- The JOIN step of list_logs for a single ActivityLogs row: the inner joins
on Users and Activities drop the row when no partner exists; the LEFT JOIN on
Locations yields an optional partner. -/
def resolveJoin (db : DbState) (al : LogRow) : Option JoinedLog :=
  match db.users.find? (fun u => u.userID == al.userID),
        db.activities.find? (fun a => a.activityID == al.activityID) with
  | some u, some a =>
      some { al := al, u := u, a := a,
             lo := al.locationID.bind
               (fun lid => db.locations.find? (fun l => l.locationID == lid)) }
  | _, _ => none

/-- The SELECT projection of list_logs. -/
def projectLog (j : JoinedLog) : LogView :=
  { logID := j.al.logID, userName := j.u.name, activityName := j.a.name,
    date := j.al.date, quantity := j.al.quantity,
    calculatedEmission := j.al.calculatedEmission,
    city := j.lo.map (fun l => l.city),
    country := j.lo.map (fun l => l.country) }

/-- MySQL DATE comparison of ISO-8601 date strings: lexicographic order on
the character sequence, which for valid ISO dates agrees with chronological
order. -/
def dateLE (a b : String) : Bool := decide (a.data ≤ b.data)

/-- Strict version of dateLE. -/
def dateLT (a b : String) : Bool := decide (a.data < b.data)

/-- The WHERE clause that Database.list_logs builds: starting from 1=1 it
appends AND AL.UserID=%s only when `if user_id:` is truthy, AND AL.Date >= %s
only when `if date_from:` is truthy, and AND AL.Date <= %s only when
`if date_to:` is truthy. -/
def logWhere (user_id : Option Int) (date_from date_to : Option String)
    (al : LogRow) : Bool :=
  (if pyTruthyInt user_id then al.userID == user_id.getD 0 else true) &&
  (if pyTruthyStr date_from then dateLE (date_from.getD "") al.date else true) &&
  (if pyTruthyStr date_to then dateLE al.date (date_to.getD "") else true)

/-- ORDER BY AL.Date DESC, AL.LogID DESC, read off the projected columns
(Date and LogID are both selected). -/
def ordView (x y : LogView) : Prop :=
  y.date.data < x.date.data ∨ (x.date = y.date ∧ y.logID ≤ x.logID)

instance : DecidableRel ordView := fun x y => by
  unfold ordView
  infer_instance

/-- Database.list_logs: JOIN, then the dynamically built WHERE clause, then
ORDER BY AL.Date DESC, AL.LogID DESC, then the SELECT projection. -/
def list_logs (db : DbState) (user_id : Option Int) (date_from date_to : Option String) :
    List LogView :=
  List.insertionSort ordView
    (((db.logs.filterMap (resolveJoin db)).filter
        (fun j => logWhere user_id date_from date_to j.al)).map projectLog)

/-- The filter described by the specification: a supplied user filter requires
an equal UserID, supplied date bounds are inclusive, absent filters impose no
constraint.  Stated from the spec wording, for comparison with logWhere. -/
def specLogFilter (user_id : Option Int) (date_from date_to : Option String)
    (al : LogRow) : Bool :=
  user_id.all (fun u => al.userID == u) &&
  date_from.all (fun s => dateLE s al.date) &&
  date_to.all (fun s => dateLE al.date s)

/-- Referential integrity of the ActivityLogs foreign keys into Users and
Activities, assumed (per the spec) to be enforced by the external schema. -/
def Integrity (db : DbState) : Prop :=
  ∀ al ∈ db.logs,
    (db.users.find? (fun u => u.userID == al.userID)).isSome ∧
    (db.activities.find? (fun a => a.activityID == al.activityID)).isSome

instance (db : DbState) : Decidable (Integrity db) := by
  unfold Integrity
  infer_instance

/-- EmissionFactors lookup used by the database-side BEFORE INSERT trigger:
the factor associated with an activity, if one is defined. -/
def factorOf (db : DbState) (activity_id : Int) : Option Int :=
  (db.factors.find? (fun p => p.1 == activity_id)).map (fun p => p.2)

/-- The column list of the INSERT statement issued by Database.add_log,
transcribed from its SQL text. -/
def addLog_columns : List String :=
  ["UserID", "ActivityID", "LocationID", "Date", "Quantity"]

/-- Database.add_log: INSERT INTO ActivityLogs (UserID, ActivityID,
LocationID, Date, Quantity) VALUES (...), returning the new row id.  The
external schema rejects dangling foreign keys; on accepted rows its BEFORE
INSERT trigger fills CalculatedEmission from the activity's emission factor
and the quantity, modelled by the abstract trigger function trig. -/
def add_log (trig : Option Int → Int → Int) (db : DbState)
    (user_id activity_id : Int) (date : String) (qty : Int)
    (location_id : Option Int) : Except String (DbState × Int) :=
  if !(db.users.any (fun u => u.userID == user_id)) then
    Except.error "foreign key constraint fails: UserID"
  else if !(db.activities.any (fun a => a.activityID == activity_id)) then
    Except.error "foreign key constraint fails: ActivityID"
  else if location_id.any (fun lid => !(db.locations.any (fun l => l.locationID == lid))) then
    Except.error "foreign key constraint fails: LocationID"
  else
    let row : LogRow :=
      { logID := db.nextLogID, userID := user_id, activityID := activity_id,
        locationID := location_id, date := date, quantity := qty,
        calculatedEmission := trig (factorOf db activity_id) qty }
    Except.ok ({ db with logs := db.logs ++ [row], nextLogID := db.nextLogID + 1 },
               db.nextLogID)

/-- Database.delete_log: DELETE FROM ActivityLogs WHERE LogID=%s, returning
cursor.rowcount, the number of rows the statement removed. -/
def delete_log (logs : List LogRow) (log_id : Int) : List LogRow × Nat :=
  (logs.filter (fun r => !(r.logID == log_id)),
   logs.countP (fun r => r.logID == log_id))

/-- Database.add_user: INSERT INTO Users (Name, Email, Password, CarbonGoal,
RegistrationDate), returning the new row id; the unique key on Email makes a
duplicate email a constraint violation. -/
def add_user (db : DbState) (name email pw : String) (goal : Option Int)
    (reg : String) : Except String (DbState × Int) :=
  if db.users.any (fun u => u.email == email) then
    Except.error "Duplicate entry for key Email"
  else
    Except.ok
      ({ db with
         users := db.users ++
           [{ userID := db.nextUserID, name := name, email := email,
              password := pw, carbonGoal := goal, registrationDate := reg }],
         nextUserID := db.nextUserID + 1 },
       db.nextUserID)

/-- Database.user_met_goal: SELECT CheckIfUserMetGoal(%s,%s,%s), then
`return bool(row[0]) if row else None`.  The argument models cur.fetchone():
none when the function yields no row, otherwise the single scalar, itself
optional because SQL may return NULL. -/
def user_met_goal (fetched : Option (Option Int)) : Option Bool :=
  match fetched with
  | some row => some (pyTruthyInt row)
  | none => none

/-- _paginate_df from app.py: an empty frame yields (frame, 0); otherwise
total_pages is ceiling division, the requested 1-based page is clamped into
[1, total_pages], and the slice df.iloc[start : start + page_size] is taken. -/
def paginate_df {α : Type} (l : List α) (page page_size : Nat) : List α × Nat :=
  if l.isEmpty then (l, 0)
  else
    let total_pages := (l.length + page_size - 1) / page_size
    let p := max 1 (min page total_pages)
    let start := (p - 1) * page_size
    ((l.drop start).take page_size, total_pages)

/-- The logs-tab sort, df_logs.sort_values(sort_col, ascending=ascending,
kind="mergesort"): a stable merge sort of the fetched rows by the chosen
column (abstracted as a key into a linearly ordered type), in the chosen
direction. -/
def sort_values {K : Type} [LinearOrder K] (key : LogView → K) (ascending : Bool)
    (l : List LogView) : List LogView :=
  l.mergeSort (fun x y =>
    if ascending then decide (key x ≤ key y) else decide (key y ≤ key x))

/-- The TTL passed to every st.cache_data wrapper in app.py. -/
def cacheTTL : Nat := 30

/-- The st.cache_data stores of app.py, one keyed store per cached function
(load_users, load_activities, load_locations, load_logs,
proc_monthly_emissions, proc_ranking, func_goal), each entry carrying its
fetch time. -/
structure Cache where
  users : Option (Nat × List UserRow)
  activities : Option (Nat × List ActivityRow)
  locations : Option (Nat × List LocationRow)
  logs : List ((Option Int × Option String × Option String) × Nat × List LogView)
  monthly : List ((Int × Int × Int) × Nat × List (String × Int))
  ranking : List ((Int × String × String) × Nat × List (String × String × Int))
  goal : List ((Int × Int × Int) × Nat × Option Bool)
deriving Repr, DecidableEq

/-- The state of all caches right after st.cache_data.clear(). -/
def Cache.empty : Cache :=
  { users := none, activities := none, locations := none,
    logs := [], monthly := [], ranking := [], goal := [] }

/-- The app-visible state: the external database plus the read caches. -/
structure AppState where
  db : DbState
  cache : Cache
deriving Repr, DecidableEq

/-- st.cache_data.clear(): every write handler in app.py calls this after a
successful write. -/
def clearCache (s : AppState) : AppState :=
  { s with cache := Cache.empty }

/-- The cached wrapper load_logs(user_id, dfrom, dto) of app.py: a hit within
the TTL returns the stored rows without touching the database; otherwise
Database.list_logs runs and its result is stored.  The final Bool reports
whether the database was queried. -/
def load_logs (s : AppState) (now : Nat) (user_id : Option Int)
    (dfrom dto : Option String) : List LogView × AppState × Bool :=
  match s.cache.logs.find? (fun e => e.1 == (user_id, dfrom, dto)) with
  | some e =>
      if now - e.2.1 < cacheTTL then (e.2.2, s, false)
      else
        let v := list_logs s.db user_id dfrom dto
        (v, { s with cache := { s.cache with
                logs := ((user_id, dfrom, dto), now, v) :: s.cache.logs } }, true)
  | none =>
      let v := list_logs s.db user_id dfrom dto
      (v, { s with cache := { s.cache with
              logs := ((user_id, dfrom, dto), now, v) :: s.cache.logs } }, true)

/-- The delete handler of the Logs tab: a nonpositive LogID only warns;
otherwise db.delete_log runs and, when `if deleted:` is truthy,
st.cache_data.clear() follows. -/
def delete_log_handler (s : AppState) (del_id : Int) : AppState :=
  if del_id ≤ 0 then s
  else
    let res := delete_log s.db.logs del_id
    let s1 : AppState := { s with db := { s.db with logs := res.1 } }
    if res.2 ≠ 0 then clearCache s1 else s1

/-- The Add Log button handler: db.add_log inside try, with
st.cache_data.clear() after a successful insert and only an error display on
exception. -/
def add_log_handler (trig : Option Int → Int → Int) (s : AppState)
    (ins_user activity_id : Int) (date : String) (qty : Int)
    (location_id : Option Int) : AppState :=
  match add_log trig s.db ins_user activity_id date qty location_id with
  | Except.ok (db', _) => clearCache { s with db := db' }
  | Except.error _ => s

/-- The Add User button handler: empty name, email or password only warns;
otherwise db.add_user inside try, with st.cache_data.clear() after success. -/
def add_user_handler (s : AppState) (name email pw : String)
    (goal : Option Int) (reg : String) : AppState :=
  if name == "" || email == "" || pw == "" then s
  else
    match add_user s.db name email pw goal reg with
    | Except.ok (db', _) => clearCache { s with db := db' }
    | Except.error _ => s

/-- A CSV cell as pandas hands it to the import loop, abstracted by its
conversion behaviour: a numeric-convertible value, non-numeric text on which
int()/float() raise, or a missing value (NaN, pd.notna false). -/
inductive Cell where
  | num (v : Int)
  | txt (s : String)
  | missing
deriving Repr, DecidableEq

/-- Python int()/float() conversion of a cell to a number. -/
def pyNum : Cell → Except String Int
  | Cell.num v => Except.ok v
  | Cell.txt s => Except.error ("could not convert string to a number: " ++ s)
  | Cell.missing => Except.error "cannot convert missing value"

/-- Python str() of a cell, which never raises. -/
def cellStr : Cell → String
  | Cell.num v => toString v
  | Cell.txt s => s
  | Cell.missing => "nan"

/-- pandas pd.notna on a cell. -/
def notna : Cell → Bool
  | Cell.missing => false
  | _ => true

/-- One row of the uploaded CSV, fields in the order the import loop reads
them; locationID is only consulted when the LocationID column exists. -/
structure CsvRow where
  activityID : Cell
  date : Cell
  quantity : Cell
  locationID : Cell
deriving Repr, DecidableEq

/-- One iteration of the import loop: build the arguments
int(r["ActivityID"]), str(r["Date"]), float(r["Quantity"]), and the optional
int(r["LocationID"]) guarded by column presence and pd.notna, then call
db.add_log.  Any raised conversion or write error surfaces as the error. -/
def importRow (trig : Option Int → Int → Int) (db : DbState)
    (picked_user : Int) (hasLocCol : Bool) (r : CsvRow) :
    Except String (DbState × Int) :=
  match pyNum r.activityID with
  | Except.error e => Except.error e
  | Except.ok aid =>
    let d := cellStr r.date
    match pyNum r.quantity with
    | Except.error e => Except.error e
    | Except.ok qty =>
      match (if hasLocCol && notna r.locationID then
          (pyNum r.locationID).map (fun v => some v)
        else Except.ok none) with
      | Except.error e => Except.error e
      | Except.ok loc => add_log trig db picked_user aid d qty loc

/-- One step of the bulk-import loop state (database so far, inserted count,
recorded warnings): try the row; on success increment the counter, on failure
append the caught message and continue. -/
def bulkStep (trig : Option Int → Int → Int) (picked_user : Int)
    (hasLocCol : Bool) (acc : DbState × Nat × List String) (r : CsvRow) :
    DbState × Nat × List String :=
  match importRow trig acc.1 picked_user hasLocCol r with
  | Except.ok (db', _) => (db', acc.2.1 + 1, acc.2.2)
  | Except.error e => (acc.1, acc.2.1, acc.2.2 ++ [e])

/-- The bulk-import loop of app.py: each row is attempted independently in
order; a per-row failure is caught and recorded, and the loop continues with
the next row. -/
def bulk_import (trig : Option Int → Int → Int) (db : DbState)
    (picked_user : Int) (hasLocCol : Bool) (rows : List CsvRow) :
    DbState × Nat × List String :=
  List.foldl (bulkStep trig picked_user hasLocCol) (db, 0, []) rows

/-- The Import Rows button handler: run the loop over all rows, report the
counts, then st.cache_data.clear() unconditionally. -/
def bulk_import_handler (trig : Option Int → Int → Int) (s : AppState)
    (picked_user : Int) (hasLocCol : Bool) (rows : List CsvRow) : AppState :=
  let res := bulk_import trig s.db picked_user hasLocCol rows
  clearCache { s with db := res.1 }

/-- The four write operations reachable from the presentation layer. -/
inductive WriteOp where
  | addUser (name email pw : String) (goal : Option Int) (reg : String)
  | addLog (ins_user activity_id : Int) (date : String) (qty : Int)
      (location_id : Option Int)
  | deleteLog (del_id : Int)
  | bulkImport (picked_user : Int) (hasLocCol : Bool) (rows : List CsvRow)

/-- Dispatch of a write operation to its app.py handler. -/
def applyWrite (trig : Option Int → Int → Int) (s : AppState) : WriteOp → AppState
  | WriteOp.addUser n e p g r => add_user_handler s n e p g r
  | WriteOp.addLog u a d q l => add_log_handler trig s u a d q l
  | WriteOp.deleteLog i => delete_log_handler s i
  | WriteOp.bulkImport u h rows => bulk_import_handler trig s u h rows

/-- Filtering a filterMap by a predicate that the partial map reflects is
filtering the original list first. -/
theorem filterMap_filter_comm {α β : Type} (g : α → Option β) (p : α → Bool)
    (q : β → Bool) (h : ∀ a b, g a = some b → q b = p a) :
    ∀ l : List α, (l.filterMap g).filter q = (l.filter p).filterMap g
  | [] => rfl
  | a :: l => by
    have ih := filterMap_filter_comm g p q h l
    cases hga : g a with
    | none =>
      cases hpa : p a <;>
        simp [List.filterMap_cons, hga, List.filter_cons, hpa, ih]
    | some b =>
      have hqb : q b = p a := h a b hga
      cases hpa : p a <;>
        simp [List.filterMap_cons, hga, List.filter_cons, hqb, hpa, ih]

/-- A filterMap whose function succeeds on every element preserves length. -/
theorem length_filterMap_all_isSome {α β : Type} (g : α → Option β) :
    ∀ l : List α, (∀ a ∈ l, (g a).isSome) → (l.filterMap g).length = l.length
  | [], _ => rfl
  | a :: l, h => by
    have ha := h a (List.mem_cons_self a l)
    cases hga : g a with
    | none => rw [hga] at ha; simp at ha
    | some b =>
      simp only [List.filterMap_cons, hga, List.length_cons]
      rw [length_filterMap_all_isSome g l (fun x hx => h x (List.mem_cons_of_mem a hx))]

/-- The JOIN step never changes the underlying ActivityLogs row. -/
theorem resolveJoin_al (db : DbState) (al : LogRow) (j : JoinedLog)
    (h : resolveJoin db al = some j) : j.al = al := by
  unfold resolveJoin at h
  rcases hu : db.users.find? (fun u => u.userID == al.userID) with _ | u <;>
    rw [hu] at h
  · cases h
  · rcases ha : db.activities.find? (fun a => a.activityID == al.activityID) with _ | a <;>
      rw [ha] at h
    · cases h
    · have h2 := Option.some.inj h
      subst h2
      rfl

/-- Under referential integrity the JOIN step succeeds on every log row. -/
theorem resolveJoin_isSome (db : DbState) (al : LogRow)
    (h1 : (db.users.find? (fun u => u.userID == al.userID)).isSome)
    (h2 : (db.activities.find? (fun a => a.activityID == al.activityID)).isSome) :
    (resolveJoin db al).isSome := by
  unfold resolveJoin
  rcases hu : db.users.find? (fun u => u.userID == al.userID) with _ | u <;>
    rw [hu] at h1
  · simp at h1
  · rcases ha : db.activities.find? (fun a => a.activityID == al.activityID) with _ | a <;>
      rw [ha] at h2
    · simp at h2
    · rw [hu, ha]
      rfl

/-- When the supplied filters avoid the Python-falsy values (a user id of 0,
an empty date string), the dynamically built WHERE clause agrees with the
specification filter. -/
theorem logWhere_eq_spec (uf : Option Int) (f t : Option String) (al : LogRow)
    (hu : uf ≠ some 0) (hf : f ≠ some "") (ht : t ≠ some "") :
    logWhere uf f t al = specLogFilter uf f t al := by
  cases uf <;> cases f <;> cases t <;>
    simp_all [logWhere, specLogFilter, pyTruthyInt, pyTruthyStr]

instance : IsTrans LogView ordView := by
  constructor
  intro a b c hab hbc
  rcases hab with h1 | ⟨e1, i1⟩
  · rcases hbc with h2 | ⟨e2, i2⟩
    · exact Or.inl (lt_trans h2 h1)
    · exact Or.inl (by rw [← e2]; exact h1)
  · rcases hbc with h2 | ⟨e2, i2⟩
    · exact Or.inl (by rw [e1]; exact h2)
    · exact Or.inr ⟨e1.trans e2, le_trans i2 i1⟩

instance : IsTotal LogView ordView := by
  constructor
  intro a b
  rcases lt_trichotomy a.date.data b.date.data with h | h | h
  · exact Or.inr (Or.inl h)
  · have e : a.date = b.date := String.ext h
    rcases le_total a.logID b.logID with hi | hi
    · exact Or.inr (Or.inr ⟨e.symm, hi⟩)
    · exact Or.inl (Or.inr ⟨e, hi⟩)
  · exact Or.inl (Or.inl h)

/-- A concrete user for witness databases. -/
def userW : UserRow :=
  { userID := 5, name := "Ada", email := "ada@example.com", password := "pw",
    carbonGoal := some 300, registrationDate := "2024-01-01" }

/-- A concrete activity for witness databases. -/
def activityW : ActivityRow :=
  { activityID := 1, name := "Driving", unitOfMeasure := "km", categoryID := 1 }

/-- A concrete log row for witness databases. -/
def logRowW (i : Int) (d : String) : LogRow :=
  { logID := i, userID := 5, activityID := 1, locationID := none, date := d,
    quantity := 1, calculatedEmission := 2 }

/-- A concrete database state used to instantiate hypotheses of the proved
theorems: one user, one activity, three logs on distinct dates. -/
def dbW : DbState :=
  { users := [userW], activities := [activityW], locations := [],
    factors := [(1, 2)],
    logs := [logRowW 1 "2024-01-05", logRowW 2 "2024-01-10", logRowW 3 "2024-02-01"],
    nextUserID := 6, nextLogID := 4 }

/-- A concrete trigger function standing in for the database-side emission
computation: emission factor times quantity. -/
def trigW (factor : Option Int) (qty : Int) : Int :=
  factor.getD 0 * qty

/-- C1: for every optional user filter, optional inclusive date-from and
optional inclusive date-to whose supplied values are Python-truthy (a user id
other than 0, non-empty date strings — the only values the UI sends), and
for a database whose log foreign keys resolve, list_logs returns exactly the
(joined, projected) log rows satisfying the conjunction of the supplied
filters — an omitted filter imposing no constraint — ordered by date
descending and then by log id descending. -/
theorem list_logs_filters_and_orders (db : DbState) (uf : Option Int)
    (f t : Option String) (hu : uf ≠ some 0) (hf : f ≠ some "")
    (ht : t ≠ some "") (hint : Integrity db) :
    List.Perm (list_logs db uf f t)
      ((db.logs.filter (specLogFilter uf f t)).filterMap
        (fun al => (resolveJoin db al).map projectLog)) ∧
    (list_logs db uf f t).length = (db.logs.filter (specLogFilter uf f t)).length ∧
    List.Sorted ordView (list_logs db uf f t) := by
  have hcomm : (db.logs.filterMap (resolveJoin db)).filter
        (fun j => logWhere uf f t j.al) =
      (db.logs.filter (logWhere uf f t)).filterMap (resolveJoin db) :=
    filterMap_filter_comm (resolveJoin db) (logWhere uf f t)
      (fun j => logWhere uf f t j.al)
      (fun a b hb => by simp only []; rw [resolveJoin_al db a b hb]) db.logs
  have hfc : db.logs.filter (logWhere uf f t) =
      db.logs.filter (specLogFilter uf f t) :=
    List.filter_congr (fun a _ => logWhere_eq_spec uf f t a hu hf ht)
  have hinput : ((db.logs.filterMap (resolveJoin db)).filter
        (fun j => logWhere uf f t j.al)).map projectLog =
      (db.logs.filter (specLogFilter uf f t)).filterMap
        (fun al => (resolveJoin db al).map projectLog) := by
    rw [hcomm, hfc, List.map_filterMap]
  have hlen2 : ((db.logs.filter (specLogFilter uf f t)).filterMap
        (fun al => (resolveJoin db al).map projectLog)).length =
      (db.logs.filter (specLogFilter uf f t)).length := by
    apply length_filterMap_all_isSome
    intro a ha
    rcases hint a (List.mem_of_mem_filter ha) with ⟨h1, h2⟩
    have hs := resolveJoin_isSome db a h1 h2
    cases hr : resolveJoin db a with
    | none => rw [hr] at hs; simp at hs
    | some j => simp [hr]
  refine ⟨?_, ?_, ?_⟩
  · unfold list_logs
    rw [hinput]
    exact List.perm_insertionSort ordView _
  · unfold list_logs
    rw [(List.perm_insertionSort ordView _).length_eq, hinput, hlen2]
  · exact List.sorted_insertionSort ordView _

/-- Witness for C1: the scenario of the spec — user 5, range
2024-01-01..2024-01-31, logs on 2024-01-05, 2024-01-10 and 2024-02-01. -/
theorem list_logs_filters_and_orders_witness :
    List.Perm (list_logs dbW (some 5) (some "2024-01-01") (some "2024-01-31"))
      ((dbW.logs.filter (specLogFilter (some 5) (some "2024-01-01") (some "2024-01-31"))).filterMap
        (fun al => (resolveJoin dbW al).map projectLog)) ∧
    (list_logs dbW (some 5) (some "2024-01-01") (some "2024-01-31")).length =
      (dbW.logs.filter (specLogFilter (some 5) (some "2024-01-01") (some "2024-01-31"))).length ∧
    List.Sorted ordView (list_logs dbW (some 5) (some "2024-01-01") (some "2024-01-31")) :=
  list_logs_filters_and_orders dbW (some 5) (some "2024-01-01") (some "2024-01-31")
    (by decide) (by decide) (by decide) (by decide)

/-- C9: a user filter of 0 is Python-falsy, so the user condition is not
appended to the query and list_logs behaves exactly as with no user filter. -/
theorem list_logs_user_zero_is_no_filter (db : DbState) (f t : Option String) :
    list_logs db (some 0) f t = list_logs db none f t := rfl

/-- C3: for every page size P > 0, _paginate_df returns totalPages = 0 and no
rows on an empty frame; on a nonempty frame of R rows, totalPages T is the
ceiling of R / P (characterized by R ≤ T*P and (T-1)*P < R), the requested
1-based page is clamped into [1, T] (so any requested page gives the same
result as its clamped value), and the last page holds R - P*(T-1) rows, a
number between 1 and P. -/
theorem paginate_df_spec {α : Type} (l : List α) (page P : Nat) (hP : 0 < P) :
    (l = [] → paginate_df l page P = ([], 0)) ∧
    (l ≠ [] →
      l.length ≤ (paginate_df l page P).2 * P ∧
      ((paginate_df l page P).2 - 1) * P < l.length ∧
      paginate_df l page P =
        paginate_df l (max 1 (min page (paginate_df l page P).2)) P ∧
      (paginate_df l (paginate_df l page P).2 P).1.length =
        l.length - P * ((paginate_df l page P).2 - 1) ∧
      1 ≤ (paginate_df l (paginate_df l page P).2 P).1.length ∧
      (paginate_df l (paginate_df l page P).2 P).1.length ≤ P) := by
  constructor
  · intro h
    subst h
    rfl
  · intro hne
    have hR : 0 < l.length := List.length_pos.mpr hne
    have hEmpty : l.isEmpty = false := by
      simp [List.isEmpty_iff]
      exact hne
    have hsnd : ∀ pg, (paginate_df l pg P).2 = (l.length + P - 1) / P := by
      intro pg
      simp [paginate_df, hEmpty]
    have hfst : ∀ pg, (paginate_df l pg P).1 =
        (l.drop ((max 1 (min pg ((l.length + P - 1) / P)) - 1) * P)).take P := by
      intro pg
      simp [paginate_df, hEmpty]
    set R := l.length with hRdef
    set T := (R + P - 1) / P with hTdef
    have hdm : P * T + (R + P - 1) % P = R + P - 1 := by
      rw [hTdef]
      exact Nat.div_add_mod (R + P - 1) P
    obtain ⟨m, hm, hdm⟩ : ∃ m, m < P ∧ P * T + m = R + P - 1 :=
      ⟨_, Nat.mod_lt _ hP, hdm⟩
    have hsub : (T - 1) * P = T * P - P := by rw [Nat.sub_mul, one_mul]
    have hT1 : 1 ≤ T := by
      rcases Nat.eq_zero_or_pos T with h0 | h1
      · rw [h0, Nat.mul_zero] at hdm
        omega
      · exact h1
    have hub : R ≤ T * P := by
      rw [Nat.mul_comm T P]
      omega
    have hlb : (T - 1) * P < R := by
      rw [hsub, Nat.mul_comm T P]
      omega
    have hlast : (paginate_df l T P).1 = (l.drop ((T - 1) * P)).take P := by
      rw [hfst T, min_self, Nat.max_eq_right hT1]
    have hlastlen : (paginate_df l T P).1.length = R - (T - 1) * P := by
      rw [hlast, List.length_take, List.length_drop]
      rw [hsub, Nat.mul_comm T P]
      omega
    refine ⟨?_, ?_, ?_, ?_, ?_, ?_⟩
    · rw [hsnd page]
      exact hub
    · rw [hsnd page]
      exact hlb
    · rw [hsnd page]
      refine Prod.ext ?_ ?_
      · rw [hfst page, hfst (max 1 (min page T))]
        have hclamp : max 1 (min (max 1 (min page T)) T) = max 1 (min page T) := by
          omega
        rw [hclamp]
      · rw [hsnd page, hsnd (max 1 (min page T))]
    · rw [hsnd page, hlastlen, Nat.mul_comm P (T - 1)]
    · rw [hsnd page, hlastlen]
      omega
    · rw [hsnd page, hlastlen]
      rw [hsub, Nat.mul_comm T P]
      omega

/-- Witness for C3: five rows with page size two give three pages; requesting
page nine clamps to the last page, which holds one row. -/
theorem paginate_df_spec_witness :
    (([] : List Nat) = [] → paginate_df ([] : List Nat) 9 2 = ([], 0)) ∧
    ([0, 1, 2, 3, 4] ≠ [] →
      [0, 1, 2, 3, 4].length ≤ (paginate_df [0, 1, 2, 3, 4] 9 2).2 * 2 ∧
      ((paginate_df [0, 1, 2, 3, 4] 9 2).2 - 1) * 2 < [0, 1, 2, 3, 4].length ∧
      paginate_df [0, 1, 2, 3, 4] 9 2 =
        paginate_df [0, 1, 2, 3, 4] (max 1 (min 9 (paginate_df [0, 1, 2, 3, 4] 9 2).2)) 2 ∧
      (paginate_df [0, 1, 2, 3, 4] (paginate_df [0, 1, 2, 3, 4] 9 2).2 2).1.length =
        [0, 1, 2, 3, 4].length - 2 * ((paginate_df [0, 1, 2, 3, 4] 9 2).2 - 1) ∧
      1 ≤ (paginate_df [0, 1, 2, 3, 4] (paginate_df [0, 1, 2, 3, 4] 9 2).2 2).1.length ∧
      (paginate_df [0, 1, 2, 3, 4] (paginate_df [0, 1, 2, 3, 4] 9 2).2 2).1.length ≤ 2) :=
  And.intro (paginate_df_spec ([] : List Nat) 9 2 (by decide)).1
    (paginate_df_spec [0, 1, 2, 3, 4] 9 2 (by decide)).2

example : user_met_goal (some (some 1)) = some true := by decide
example : user_met_goal (some none) = some false := by decide
example : user_met_goal none = none := by decide
example : delete_log [] 3 = ([], 0) := by decide
example : paginate_df [0, 1, 2, 3, 4] 3 2 = ([4], 3) := by decide
example : paginate_df [0, 1, 2, 3, 4] 9 2 = ([4], 3) := by decide
example : paginate_df ([] : List Nat) 1 2 = ([], 0) := by decide
example : (list_logs dbW (some 5) (some "2024-01-01") (some "2024-01-31")).map LogView.logID = [2, 1] := by decide

/-- C4: user_met_goal is tri-state: it is unknown (None) exactly when the
external function yields no row, and otherwise it is the boolean value of the
single scalar the function produced. -/
theorem user_met_goal_tristate :
    (∀ fetched : Option (Option Int), user_met_goal fetched = none ↔ fetched = none) ∧
    (∀ v : Option Int, user_met_goal (some v) = some (pyTruthyInt v)) := by
  constructor
  · intro fetched
    cases fetched <;> simp [user_met_goal]
  · intro v
    rfl

/-- C10: a returned row whose scalar is NULL yields false, not unknown;
unknown arises only when no row at all is returned. -/
theorem user_met_goal_null_scalar_false :
    user_met_goal (some none) = some false ∧
    (∀ fetched : Option (Option Int), (user_met_goal fetched).isNone = fetched.isNone) := by
  constructor
  · rfl
  · intro fetched
    cases fetched <;> rfl

/-- C5: under uniqueness of LogID (the primary key), delete_log returns the
count of rows removed, which is 0 or 1; on an id with no matching row it
returns 0 and leaves the table unchanged, raising no error. -/
theorem delete_log_count_spec (logs : List LogRow) (log_id : Int)
    (hnd : (logs.map LogRow.logID).Nodup) :
    ((delete_log logs log_id).2 = 0 ∨ (delete_log logs log_id).2 = 1) ∧
    ((∀ r ∈ logs, r.logID ≠ log_id) →
      (delete_log logs log_id).2 = 0 ∧ (delete_log logs log_id).1 = logs) := by
  constructor
  · have hcount : (logs.map LogRow.logID).count log_id ≤ 1 :=
      List.nodup_iff_count_le_one.mp hnd log_id
    have heq : (logs.map LogRow.logID).count log_id =
        logs.countP (fun r => r.logID == log_id) := by
      rw [List.count, List.countP_map]
      rfl
    rw [heq] at hcount
    unfold delete_log
    omega
  · intro h
    constructor
    · apply List.countP_eq_zero.mpr
      intro a ha
      simp [h a ha]
    · apply List.filter_eq_self.mpr
      intro a ha
      simp [h a ha]

/-- Witness for C5: deleting a nonexistent LogID from the witness table. -/
theorem delete_log_count_spec_witness :
    ((delete_log dbW.logs 99).2 = 0 ∨ (delete_log dbW.logs 99).2 = 1) ∧
    ((∀ r ∈ dbW.logs, r.logID ≠ 99) →
      (delete_log dbW.logs 99).2 = 0 ∧ (delete_log dbW.logs 99).1 = dbW.logs) :=
  delete_log_count_spec dbW.logs 99 (by decide)

/-- C8: the logs-tab sort is stable: for every fetched row list, every sort
column (key) and both directions, two rows with equal keys that appear in
some order in the input appear in the same order in the output. -/
theorem sort_values_stable {K : Type} [LinearOrder K] (key : LogView → K)
    (ascending : Bool) (l : List LogView) (x y : LogView)
    (hkey : key x = key y) (hsub : List.Sublist [x, y] l) :
    List.Sublist [x, y] (sort_values key ascending l) := by
  unfold sort_values
  refine List.pair_sublist_mergeSort ?_ ?_ ?_ hsub
  · intro a b c hab hbc
    cases ascending <;> simp at hab hbc ⊢
    · exact le_trans hbc hab
    · exact le_trans hab hbc
  · intro a b
    cases ascending <;> simp
    · exact le_total _ _
    · exact le_total _ _
  · cases ascending <;> simp [hkey]

/-- A concrete joined row for the sorting witness. -/
def viewW (i : Int) (d : String) : LogView :=
  { logID := i, userName := "Ada", activityName := "Driving", date := d,
    quantity := 1, calculatedEmission := 2, city := none, country := none }

/-- Witness for C8: two rows sharing a date keep their order under a
descending sort by date. -/
theorem sort_values_stable_witness :
    LogView.date (viewW 1 "2024-01-05") = LogView.date (viewW 2 "2024-01-05") ∧
    List.Sublist [viewW 1 "2024-01-05", viewW 2 "2024-01-05"]
      (sort_values LogView.date false
        [viewW 1 "2024-01-05", viewW 2 "2024-01-05"]) :=
  ⟨rfl, sort_values_stable LogView.date false
    [viewW 1 "2024-01-05", viewW 2 "2024-01-05"]
    (viewW 1 "2024-01-05") (viewW 2 "2024-01-05") rfl (List.Sublist.refl _)⟩

/-- A successful add_log appends exactly the row built from its arguments,
with CalculatedEmission produced by the trigger, and returns the new id. -/
theorem add_log_ok_shape (trig : Option Int → Int → Int) (db : DbState)
    (uid aid : Int) (d : String) (q : Int) (loc : Option Int)
    (db' : DbState) (nid : Int)
    (h : add_log trig db uid aid d q loc = Except.ok (db', nid)) :
    db' = { db with
      logs := db.logs ++
        [{ logID := db.nextLogID, userID := uid, activityID := aid,
           locationID := loc, date := d, quantity := q,
           calculatedEmission := trig (factorOf db aid) q }],
      nextLogID := db.nextLogID + 1 } ∧
    nid = db.nextLogID := by
  unfold add_log at h
  split at h
  · exact Except.noConfusion h
  · split at h
    · exact Except.noConfusion h
    · split at h
      · exact Except.noConfusion h
      · have h2 := Except.ok.inj h
        rw [Prod.mk.injEq] at h2
        obtain ⟨h3, h4⟩ := h2
        exact ⟨h3.symm, h4.symm⟩

/-- A successful add_log grows the ActivityLogs table by one row. -/
theorem add_log_ok_length (trig : Option Int → Int → Int) (db : DbState)
    (uid aid : Int) (d : String) (q : Int) (loc : Option Int)
    (db' : DbState) (nid : Int)
    (h : add_log trig db uid aid d q loc = Except.ok (db', nid)) :
    db'.logs.length = db.logs.length + 1 := by
  obtain ⟨h1, -⟩ := add_log_ok_shape trig db uid aid d q loc db' nid h
  rw [h1]
  simp

/-- A successful import of one CSV row grows the table by one row. -/
theorem importRow_ok_length (trig : Option Int → Int → Int) (db : DbState)
    (u : Int) (hl : Bool) (r : CsvRow) (db' : DbState) (nid : Int)
    (h : importRow trig db u hl r = Except.ok (db', nid)) :
    db'.logs.length = db.logs.length + 1 := by
  unfold importRow at h
  cases h1 : pyNum r.activityID with
  | error e => rw [h1] at h; exact Except.noConfusion h
  | ok aid =>
    rw [h1] at h
    cases h2 : pyNum r.quantity with
    | error e => rw [h2] at h; exact Except.noConfusion h
    | ok qty =>
      rw [h2] at h
      cases h3 : (if hl && notna r.locationID then
          (pyNum r.locationID).map (fun v => some v)
        else Except.ok none) with
      | error e => rw [h3] at h; exact Except.noConfusion h
      | ok loc =>
        rw [h3] at h
        exact add_log_ok_length trig db u aid (cellStr r.date) qty loc db' nid h

/-- Loop invariant of the bulk import fold: every row either increments the
inserted counter or appends one recorded failure, and the table grows by
exactly the number of newly inserted rows. -/
theorem bulk_foldl_invariant (trig : Option Int → Int → Int) (u : Int)
    (hl : Bool) :
    ∀ (rows : List CsvRow) (acc : DbState × Nat × List String),
      (List.foldl (bulkStep trig u hl) acc rows).2.1 +
          (List.foldl (bulkStep trig u hl) acc rows).2.2.length =
        acc.2.1 + acc.2.2.length + rows.length ∧
      (List.foldl (bulkStep trig u hl) acc rows).1.logs.length + acc.2.1 =
        acc.1.logs.length + (List.foldl (bulkStep trig u hl) acc rows).2.1
  | [], acc => by simp
  | r :: rows, acc => by
    obtain ⟨ih1, ih2⟩ := bulk_foldl_invariant trig u hl rows (bulkStep trig u hl acc r)
    rw [List.foldl_cons]
    cases hstep : importRow trig acc.1 u hl r with
    | ok p =>
      obtain ⟨db', nid⟩ := p
      have hb : bulkStep trig u hl acc r = (db', acc.2.1 + 1, acc.2.2) := by
        unfold bulkStep
        rw [hstep]
      have hlen := importRow_ok_length trig acc.1 u hl r db' nid hstep
      rw [hb] at ih1 ih2 ⊢
      simp only [List.length_cons]
      simp at ih1 ih2
      exact ⟨by omega, by omega⟩
    | error e =>
      have hb : bulkStep trig u hl acc r = (acc.1, acc.2.1, acc.2.2 ++ [e]) := by
        unfold bulkStep
        rw [hstep]
      rw [hb] at ih1 ih2 ⊢
      simp only [List.length_cons]
      simp at ih1 ih2
      exact ⟨by omega, by omega⟩

/-- C6: bulk import attempts each row sequentially and independently; a
failing row is recorded but does not abort the rest, so the inserted count
plus the recorded failure count equals the number of input rows, exactly the
inserted rows land in the table, and the operation returns normally. -/
theorem bulk_import_best_effort (trig : Option Int → Int → Int) (db : DbState)
    (u : Int) (hl : Bool) (rows : List CsvRow) :
    (bulk_import trig db u hl rows).2.1 +
        (bulk_import trig db u hl rows).2.2.length = rows.length ∧
    (bulk_import trig db u hl rows).1.logs.length =
      db.logs.length + (bulk_import trig db u hl rows).2.1 := by
  obtain ⟨h1, h2⟩ := bulk_foldl_invariant trig u hl rows (db, 0, [])
  unfold bulk_import
  constructor
  · simpa using h1
  · simpa using h2

/-- The spec scenario for C6, checked concretely: three rows, the second with
a non-numeric quantity, insert two rows, record one failure, and complete. -/
theorem bulk_import_scenario :
    (bulk_import trigW dbW 5 false
      [{ activityID := Cell.num 1, date := Cell.txt "2024-03-01",
         quantity := Cell.num 2, locationID := Cell.missing },
       { activityID := Cell.num 1, date := Cell.txt "2024-03-02",
         quantity := Cell.txt "abc", locationID := Cell.missing },
       { activityID := Cell.num 1, date := Cell.txt "2024-03-03",
         quantity := Cell.num 3, locationID := Cell.missing }]).2.1 = 2 ∧
    (bulk_import trigW dbW 5 false
      [{ activityID := Cell.num 1, date := Cell.txt "2024-03-01",
         quantity := Cell.num 2, locationID := Cell.missing },
       { activityID := Cell.num 1, date := Cell.txt "2024-03-02",
         quantity := Cell.txt "abc", locationID := Cell.missing },
       { activityID := Cell.num 1, date := Cell.txt "2024-03-03",
         quantity := Cell.num 3, locationID := Cell.missing }]).2.2.length = 1 := by
  constructor <;> rfl

/-- C7: add_log never supplies CalculatedEmission: the INSERT lists only the
UserID, ActivityID, LocationID, Date and Quantity columns, and on every
successful call the appended row carries those five argument values while its
emission value is whatever the external trigger computation produces. -/
theorem add_log_emission_external :
    ("CalculatedEmission" ∉ addLog_columns) ∧
    (∀ (trig : Option Int → Int → Int) (db : DbState) (uid aid : Int)
        (d : String) (q : Int) (loc : Option Int) (db' : DbState) (nid : Int),
      add_log trig db uid aid d q loc = Except.ok (db', nid) →
      ∃ row : LogRow, db'.logs = db.logs ++ [row] ∧
        row.calculatedEmission = trig (factorOf db aid) q ∧
        row.userID = uid ∧ row.activityID = aid ∧ row.locationID = loc ∧
        row.date = d ∧ row.quantity = q) := by
  constructor
  · decide
  · intro trig db uid aid d q loc db' nid h
    obtain ⟨h1, -⟩ := add_log_ok_shape trig db uid aid d q loc db' nid h
    rw [h1]
    exact ⟨_, rfl, rfl, rfl, rfl, rfl, rfl, rfl⟩

/-- The database state expected after the witness insert for C7. -/
def dbW2 : DbState :=
  { dbW with
    logs := dbW.logs ++
      [{ logID := 4, userID := 5, activityID := 1, locationID := none,
         date := "2024-03-01", quantity := 2, calculatedEmission := 4 }],
    nextLogID := 5 }

/-- Witness for C7: a concrete successful insert. -/
theorem add_log_emission_external_witness :
    ("CalculatedEmission" ∉ addLog_columns) ∧
    (∃ row : LogRow, dbW2.logs = dbW.logs ++ [row] ∧
      row.calculatedEmission = trigW (factorOf dbW 1) 2 ∧
      row.userID = 5 ∧ row.activityID = 1 ∧ row.locationID = none ∧
      row.date = "2024-03-01" ∧ row.quantity = 2) :=
  ⟨add_log_emission_external.1,
   add_log_emission_external.2 trigW dbW 5 1 "2024-03-01" 2 none dbW2 4 rfl⟩

/-- A read against an app state whose caches have just been cleared always
queries the data access layer. -/
theorem load_logs_empty_cache_queries (s : AppState)
    (hcache : s.cache = Cache.empty) (now : Nat) (uf : Option Int)
    (f t : Option String) : (load_logs s now uf f t).2.2 = true := by
  unfold load_logs
  rw [hcache]
  rfl

/-- C2: whenever one of the four presentation-layer write operations actually
changes the database state, the handler ends with the entire read cache
invalidated, so the next read, with any arguments and at any time, re-queries
the data access layer. -/
theorem write_invalidates_cache (trig : Option Int → Int → Int) (s : AppState)
    (op : WriteOp) (hwrite : (applyWrite trig s op).db ≠ s.db) :
    (applyWrite trig s op).cache = Cache.empty ∧
    (∀ (now : Nat) (uf : Option Int) (f t : Option String),
      (load_logs (applyWrite trig s op) now uf f t).2.2 = true) := by
  cases op with
  | addUser n e p g r =>
    cases hc : (n == "" || e == "" || p == "") with
    | true =>
      have hs : applyWrite trig s (WriteOp.addUser n e p g r) = s := by
        simp [applyWrite, add_user_handler, hc]
      rw [hs] at hwrite
      exact absurd rfl hwrite
    | false =>
      cases hau : add_user s.db n e p g r with
      | ok pr =>
        have hs : applyWrite trig s (WriteOp.addUser n e p g r) =
            clearCache { s with db := pr.1 } := by
          obtain ⟨db', nid⟩ := pr
          simp [applyWrite, add_user_handler, hc, hau]
        rw [hs]
        exact ⟨rfl, fun now uf f t =>
          load_logs_empty_cache_queries _ rfl now uf f t⟩
      | error e2 =>
        have hs : applyWrite trig s (WriteOp.addUser n e p g r) = s := by
          simp [applyWrite, add_user_handler, hc, hau]
        rw [hs] at hwrite
        exact absurd rfl hwrite
  | addLog u a d q lo =>
    cases hal : add_log trig s.db u a d q lo with
    | ok pr =>
      have hs : applyWrite trig s (WriteOp.addLog u a d q lo) =
          clearCache { s with db := pr.1 } := by
        obtain ⟨db', nid⟩ := pr
        simp [applyWrite, add_log_handler, hal]
      rw [hs]
      exact ⟨rfl, fun now uf f t =>
        load_logs_empty_cache_queries _ rfl now uf f t⟩
    | error e2 =>
      have hs : applyWrite trig s (WriteOp.addLog u a d q lo) = s := by
        simp [applyWrite, add_log_handler, hal]
      rw [hs] at hwrite
      exact absurd rfl hwrite
  | deleteLog i =>
    by_cases hle : i ≤ 0
    · have hs : applyWrite trig s (WriteOp.deleteLog i) = s := by
        simp [applyWrite, delete_log_handler, hle]
      rw [hs] at hwrite
      exact absurd rfl hwrite
    · by_cases hz : (delete_log s.db.logs i).2 = 0
      · have hfil : (delete_log s.db.logs i).1 = s.db.logs := by
          apply List.filter_eq_self.mpr
          intro a ha
          have hz2 : ∀ r ∈ s.db.logs, ¬ (r.logID == i) = true :=
            List.countP_eq_zero.mp hz
          simpa using hz2 a ha
        have hs : applyWrite trig s (WriteOp.deleteLog i) = s := by
          simp [applyWrite, delete_log_handler, hle, hz, hfil]
        rw [hs] at hwrite
        exact absurd rfl hwrite
      · have hs : applyWrite trig s (WriteOp.deleteLog i) =
            clearCache { s with db := { s.db with logs := (delete_log s.db.logs i).1 } } := by
          simp [applyWrite, delete_log_handler, hle, hz]
        rw [hs]
        exact ⟨rfl, fun now uf f t =>
          load_logs_empty_cache_queries _ rfl now uf f t⟩
  | bulkImport u hl rows =>
    have hs : applyWrite trig s (WriteOp.bulkImport u hl rows) =
        clearCache { s with db := (bulk_import trig s.db u hl rows).1 } := rfl
    rw [hs]
    exact ⟨rfl, fun now uf f t =>
      load_logs_empty_cache_queries _ rfl now uf f t⟩

/-- An app state with a populated cache, for the C2 witness. -/
def appW : AppState :=
  { db := dbW,
    cache := { users := some (0, [userW]), activities := none,
               locations := none,
               logs := [((some 5, some "2024-01-01", some "2024-01-31"), 0,
                         list_logs dbW (some 5) (some "2024-01-01") (some "2024-01-31"))],
               monthly := [], ranking := [], goal := [] } }

/-- Witness for C2: deleting an existing log clears the populated cache, and
the next read queries the database. -/
theorem write_invalidates_cache_witness :
    (applyWrite trigW appW (WriteOp.deleteLog 1)).cache = Cache.empty ∧
    (load_logs (applyWrite trigW appW (WriteOp.deleteLog 1)) 0 none none none).2.2 = true :=
  ⟨(write_invalidates_cache trigW appW (WriteOp.deleteLog 1) (by decide)).1,
   (write_invalidates_cache trigW appW (WriteOp.deleteLog 1) (by decide)).2 0 none none none⟩

/-- Counterexample to C1 as literally stated: with a user filter of 0 —
Python-falsy, so the user condition is never appended — list_logs returns
rows of other users, not the (empty) set of rows matching user 0. -/
theorem list_logs_c1_counterexample :
    ¬ ((list_logs dbW (some 0) none none).length =
        (dbW.logs.filter (specLogFilter (some 0) none none)).length) := by
  decide
